import Mathlib

/-!
Shallow embedding of the partition-layout planner of system76/installer-backend.

The embedding follows `src/disk/mod.rs` (the `Disk` model, its mutation API and
the layout differ) and `crates/disks/src/config/partitions/mod.rs` (the
`PartitionInfo` record and its comparison predicates).  Machine integers are
modelled as `Nat` (sector values are `u64`; none of the verified operations can
overflow for well-formed inputs) and `Int` (partition numbers are `i32`).
Rust methods that mutate `&mut self` and return `Result<(), DiskError>` are
modelled as pure functions returning the pair of the `Except` result and the
post-state of the disk.
-/

/-- The file-system variants of `FileSystemType` (crates/disks, `fstypes`). -/
inductive FileSystemType
  | Btrfs | Exfat | Ext2 | Ext3 | Ext4 | F2fs | Fat16 | Fat32
  | Swap | Xfs | Lvm | Luks | Ntfs
deriving DecidableEq, Repr

/-- `PartitionType` from crates/disks (`fstypes`): primary or logical. -/
inductive PartitionType
  | Primary | Logical
deriving DecidableEq, Repr

/-- `PartitionTable` from src/disk/mod.rs. -/
inductive PartitionTable
  | Msdos | Gpt
deriving DecidableEq, Repr

/-- `DiskError` from src/disk/mod.rs.  The `MountsObtain` and `SerialGet`
variants carry an `io::Error` from the probe collaborators; that payload is
external I/O state and is dropped here (none of the modelled operations
produce these two variants). -/
inductive DiskError
  | DeviceGet
  | DeviceProbe
  | DiskGet
  | DiskNew
  | LayoutChanged
  | MountsObtain
  | PartitionNotFound (partition : Int)
  | PartitionOverlaps
  | SectorOverlaps (id : Int)
  | SerialGet
  | PartitionOOB
  | ResizeTooSmall
deriving DecidableEq, Repr

/-- `LvmEncryption` (crates/disks config): the LUKS pairing data carried by
`PartitionInfo.volume_group`.  Inert for every verified operation. -/
structure LvmEncryption where
  physical_volume : String
  password : Option String
  keydata : Option String
deriving DecidableEq, Repr

/-- `PartitionInfo` from crates/disks/src/config/partitions/mod.rs.  The `u8`
bitflag field (`SOURCE`, `REMOVE`, `FORMAT`, `ACTIVE`, `BUSY`, `SWAPPED`) is
split into six independent booleans, matching the boolean field set that
src/disk/mod.rs uses on the same record (`is_source`, `remove`, `format`,
`active`, `busy`).  libparted `PartitionFlag` values are abstracted as
naturals; they are only ever compared for list equality
(`requires_changes`). -/
structure PartitionInfo where
  is_source : Bool
  remove : Bool
  format : Bool
  active : Bool
  busy : Bool
  swapped : Bool := false
  number : Int
  ordering : Int := -1
  start_sector : Nat
  end_sector : Nat
  part_type : PartitionType
  filesystem : Option FileSystemType
  flags : List Nat := []
  name : Option String
  device_path : String
  mount_point : Option String
  target : Option String := none
  original_vg : Option String := none
  volume_group : Option (String × Option LvmEncryption) := none
  key_id : Option String := none
deriving DecidableEq, Repr

/-- `PartitionInfo::sectors_differ_from`: true when either sector bound of the
compared partition differs from the source. -/
def PartitionInfo.sectors_differ_from (p other : PartitionInfo) : Bool :=
  p.start_sector != other.start_sector || p.end_sector != other.end_sector

/-- `PartitionInfo::requires_changes`: true if the compared partition has
differing parameters from the source (sector bounds, file system, flag list)
or is marked to be formatted. -/
def PartitionInfo.requires_changes (p other : PartitionInfo) : Bool :=
  p.sectors_differ_from other || p.filesystem != other.filesystem
    || p.flags != other.flags || other.format

/-- `PartitionInfo::is_same_partition_as`: both records carry the SOURCE flag
and share the same partition number. -/
def PartitionInfo.is_same_partition_as (p other : PartitionInfo) : Bool :=
  p.is_source && other.is_source && p.number == other.number

/-- `PartitionBuilder` (crates/disks/src/config/partitions/builder.rs).
Modelled from the spec: the builder source file is absent from the provided
sources; per spec section 4.1 it is constructed from start sector, end sector
and file system, with optional chained configuration for partition type
(default Primary), name, mount target and volume-group/encryption pairing. -/
structure PartitionBuilder where
  start_sector : Nat
  end_sector : Nat
  filesystem : FileSystemType
  part_type : PartitionType := .Primary
  name : Option String := none
  flags : List Nat := []
  target : Option String := none
  volume_group : Option (String × Option LvmEncryption) := none
deriving DecidableEq, Repr

/-- `PartitionBuilder::new(start, end, fs)`.  Modelled from the spec: the
builder source file is absent from the provided sources.  The constructor
takes an exclusive end sector and stores the inclusive end `end - 1`: the
spec's concrete scenario ("add new Fat16 partition at 2048 (length
1,024,000)" yielding the creation entry `{2048, 1024000+2047, Fat16}`) and the
in-tree tests (`boot_part(2048)` built from `(2048, 1024_000 + 2048)` must
occupy `[2048, 1026047]`, and a partition starting at sector 1026047 must
collide with it) pin this conversion. -/
def PartitionBuilder.new (start stop : Nat) (fs : FileSystemType) : PartitionBuilder :=
  { start_sector := start, end_sector := stop - 1, filesystem := fs }

/-- `PartitionBuilder::build`.  Modelled from the spec: the builder source
file is absent from the provided sources; per spec sections 4.1 and 3 it
produces a record with `IS_SOURCE` unset (and hence no pending-change flags)
and no partition number assigned (`-1` is the invalid-number marker). -/
def PartitionBuilder.build (b : PartitionBuilder) : PartitionInfo :=
  { is_source := false
    remove := false
    format := false
    active := false
    busy := false
    number := -1
    start_sector := b.start_sector
    end_sector := b.end_sector
    part_type := b.part_type
    filesystem := some b.filesystem
    flags := b.flags
    name := b.name
    device_path := ""
    mount_point := none
    target := b.target
    volume_group := b.volume_group }

/-- `PartitionChange` (src/disk/operations.rs): change descriptor of the
operation plan.  The Rust field `end` is renamed `stop` (`end` is a Lean
keyword). -/
structure PartitionChange where
  num : Int
  start : Nat
  stop : Nat
  format : Option FileSystemType
deriving DecidableEq, Repr

/-- `PartitionCreate` (src/disk/operations.rs): create descriptor of the
operation plan. -/
structure PartitionCreate where
  start_sector : Nat
  end_sector : Nat
  file_system : FileSystemType
deriving DecidableEq, Repr

/-- `DiskOps` (src/disk/operations.rs): the operation plan produced by
`Disk::diff`. -/
structure DiskOps where
  remove_partitions : List Int
  change_partitions : List PartitionChange
  create_partitions : List PartitionCreate
deriving DecidableEq, Repr

/-- `Disk` from src/disk/mod.rs. -/
structure Disk where
  model_name : String
  serial : String
  device_path : String
  size : Nat
  sector_size : Nat
  device_type : String
  table_type : Option PartitionTable
  read_only : Bool
  partitions : List PartitionInfo
deriving DecidableEq, Repr

/-- The first partition record whose number matches, mirroring
`self.partitions.iter_mut().find(|p| p.number == partition)`
(`Disk::get_partition_mut`). -/
def firstWithNumber? (n : Int) : List PartitionInfo → Option PartitionInfo
  | [] => none
  | p :: rest => if p.number = n then some p else firstWithNumber? n rest

/-- Apply `f` to the first record whose number matches, leaving the rest of
the list unchanged: the pure counterpart of mutating through
`Disk::get_partition_mut`. -/
def modifyFirstWithNumber (n : Int) (f : PartitionInfo → PartitionInfo) :
    List PartitionInfo → List PartitionInfo
  | [] => []
  | p :: rest =>
    if p.number = n then f p :: rest else p :: modifyFirstWithNumber n f rest

/-- `Disk::overlaps_region(start, end)`: scan the partitions that are not
flagged for removal and return the number of the first one whose inclusive
range is not strictly on one side of `[start, stop]`. -/
def Disk.overlaps_region (d : Disk) (start stop : Nat) : Option Int :=
  ((d.partitions.filter (fun p => !p.remove)).find? (fun p =>
      decide (¬((start < p.start_sector ∧ stop < p.start_sector)
        ∨ (start > p.end_sector ∧ stop > p.end_sector))))).map
    (fun p => p.number)

/-- `Disk::get_partition_at(sector)`: number of the first non-removed
partition whose inclusive range contains the sector. -/
def Disk.get_partition_at (d : Disk) (sector : Nat) : Option Int :=
  ((d.partitions.filter (fun p => !p.remove)).find? (fun p =>
      decide (sector ≥ p.start_sector ∧ sector ≤ p.end_sector))).map
    (fun p => p.number)

/-- `Disk::add_partition(builder)`: reject a candidate range that overlaps an
existing non-removed partition, then a range whose end exceeds the disk size;
otherwise append the built record. -/
def Disk.add_partition (d : Disk) (builder : PartitionBuilder) :
    Except DiskError Unit × Disk :=
  match d.overlaps_region builder.start_sector builder.end_sector with
  | some id => (.error (.SectorOverlaps id), d)
  | none =>
    if d.size < builder.end_sector then
      (.error .PartitionOOB, d)
    else
      (.ok (), { d with partitions := d.partitions ++ [builder.build] })

/-- The body of `Disk::remove_partition`: find the first record with the
given number at its enumeration index `i`; a source record is flagged for
removal in place (yielding the sentinel id `0`), otherwise the computed id is
the index `i` and the record is deleted afterwards only when `i != 0` —
faithfully reproducing the source's `if id != 0` guard, under which a
non-source record sitting at index 0 is kept. -/
def removeLoop (partition : Int) : List PartitionInfo → Nat → Option (List PartitionInfo)
  | [], _ => none
  | p :: rest, i =>
    if p.number = partition then
      if p.is_source then some ({ p with remove := true } :: rest)
      else if i = 0 then some (p :: rest)
      else some rest
    else
      (removeLoop partition rest (i + 1)).map (fun r => p :: r)

/-- `Disk::remove_partition(partition)`. -/
def Disk.remove_partition (d : Disk) (partition : Int) :
    Except DiskError Unit × Disk :=
  match removeLoop partition d.partitions 0 with
  | none => (.error (.PartitionNotFound partition), d)
  | some parts => (.ok (), { d with partitions := parts })

/-- `Disk::resize_partition(partition, length)`: reject lengths at or below
the 10 MiB threshold, tentatively write the new end sector, then re-validate
against `overlaps_region`, rolling the end sector back when a distinct
partition collides. -/
def Disk.resize_partition (d : Disk) (partition : Int) (length : Nat) :
    Except DiskError Unit × Disk :=
  if length ≤ 10 * 1024 * 1024 / d.sector_size then
    (.error .ResizeTooSmall, d)
  else
    match firstWithNumber? partition d.partitions with
    | none => (.error (.PartitionNotFound partition), d)
    | some p =>
      let backup := p.end_sector
      let num := p.number
      let start := p.start_sector
      let stop := start + length
      let grown := modifyFirstWithNumber partition (fun q => { q with end_sector := stop }) d.partitions
      let d1 : Disk := { d with partitions := grown }
      match d1.overlaps_region start stop with
      | some id =>
        if id ≠ num then
          let rolledBack := modifyFirstWithNumber partition (fun q => { q with end_sector := backup }) d1.partitions
          (.error (.SectorOverlaps id), { d1 with partitions := rolledBack })
        else (.ok (), d1)
      | none => (.ok (), d1)

/-- `Disk::move_partition(partition, start)`: succeed as a no-op when the new
start equals the current one, otherwise shift the inclusive range by the
delta, validate the shifted range against `overlaps_region` and only then
mutate. -/
def Disk.move_partition (d : Disk) (partition : Int) (start : Nat) :
    Except DiskError Unit × Disk :=
  match firstWithNumber? partition d.partitions with
  | none => (.error (.PartitionNotFound partition), d)
  | some p =>
    if start = p.start_sector then (.ok (), d)
    else
      let stop :=
        if start > p.start_sector then p.end_sector + (start - p.start_sector)
        else p.end_sector - (p.start_sector - start)
      match d.overlaps_region start stop with
      | some id => (.error (.SectorOverlaps id), d)
      | none =>
        let moved := modifyFirstWithNumber partition (fun q => { q with start_sector := start, end_sector := stop }) d.partitions
        (.ok (), { d with partitions := moved })

/-- The shifted end sector `move_partition` computes for a record `p` moved
to the new start sector: the old end sector displaced by the same delta as
the start sector. -/
def movedEnd (p : PartitionInfo) (start : Nat) : Nat :=
  if start > p.start_sector then p.end_sector + (start - p.start_sector)
  else p.end_sector - (p.start_sector - start)

/-- `Disk::format_partition(partition, fs)`: flag the first matching record
for formatting and set its file system. -/
def Disk.format_partition (d : Disk) (partition : Int) (fs : FileSystemType) :
    Except DiskError Unit × Disk :=
  match firstWithNumber? partition d.partitions with
  | none => (.error (.PartitionNotFound partition), d)
  | some _ =>
    let formatted := modifyFirstWithNumber partition (fun q => { q with format := true, filesystem := some fs }) d.partitions
    (.ok (), { d with partitions := formatted })

/-- The inner `while let Some(new) = new_parts.next()` of
`Disk::validate_layout`: consume records from the shared iterator until one
matches the given source record, returning the unconsumed remainder. -/
def seekMatch (s : PartitionInfo) : List PartitionInfo → Option (List PartitionInfo)
  | [] => none
  | q :: qs => if s.is_same_partition_as q then some qs else seekMatch s qs

/-- The loop of `Disk::validate_layout`: every record of the original list
must find a match while advancing a single shared iterator over the proposed
list. -/
def validateLoop : List PartitionInfo → List PartitionInfo → Bool
  | [], _ => true
  | s :: rest, avail =>
    match seekMatch s avail with
    | some r => validateLoop rest r
    | none => false

/-- `Disk::validate_layout(new)`. -/
def Disk.validate_layout (d new : Disk) : Except DiskError Unit :=
  if validateLoop d.partitions new.partitions then .ok ()
  else .error .LayoutChanged

/-- The pairing loop of `Disk::diff`: each original record consumes exactly
one proposed record (`new_part` is always `None` in the source, so each inner
iteration draws from the iterator).  `none` models the source's divergent or
panicking paths: an exhausted iterator spins the inner `loop` forever, and a
non-source record or a number mismatch hits `unreachable!`.  On success the
value carries the removal numbers, the change descriptors and the unconsumed
remainder of the proposed list. -/
def diffLoop : List PartitionInfo → List PartitionInfo →
    Option (List Int × List PartitionChange × List PartitionInfo)
  | [], avail => some ([], [], avail)
  | s :: rest, avail =>
    match avail with
    | [] => none
    | q :: qs =>
      if q.is_source then
        if s.number ≠ q.number then none
        else if q.remove then
          (diffLoop rest qs).map (fun x => (q.number :: x.1, x.2.1, x.2.2))
        else if s.requires_changes q then
          (diffLoop rest qs).map (fun x =>
            (x.1,
             { num := s.number, start := q.start_sector, stop := q.end_sector,
               format := if q.format then q.filesystem else none } :: x.2.1,
             x.2.2))
        else diffLoop rest qs
      else none

/-- The trailing loop of `Disk::diff`: every record left in the proposed list
becomes a create descriptor; `partition.filesystem.unwrap()` panics on a
record without a file system, modelled as `none`. -/
def createAll : List PartitionInfo → Option (List PartitionCreate)
  | [] => some []
  | p :: rest =>
    match p.filesystem with
    | none => none
    | some fs =>
      (createAll rest).map (fun cs =>
        { start_sector := p.start_sector, end_sector := p.end_sector,
          file_system := fs } :: cs)

/-- `Disk::diff(new)`: validate the layout, reconcile pairwise, then emit the
remaining proposed records as creations.  The outer `none` marks the paths on
which the source panics (`unreachable!`) or never terminates; `some` carries
the `Result<DiskOps, DiskError>` value the source returns. -/
def Disk.diff (d new : Disk) : Option (Except DiskError DiskOps) :=
  match d.validate_layout new with
  | .error e => some (.error e)
  | .ok () =>
    match diffLoop d.partitions new.partitions with
    | none => none
    | some x =>
      match createAll x.2.2 with
      | none => none
      | some creates =>
        some (.ok { remove_partitions := x.1, change_partitions := x.2.1,
                    create_partitions := creates })

/-- The spec's overlap notion, stated declaratively: the candidate inclusive
range `[start, stop]` shares or touches a sector of some existing partition
that is not flagged for removal (with inclusive end sectors, touching
boundaries share the boundary sector). -/
def sharesOrTouches (parts : List PartitionInfo) (start stop : Nat) : Prop :=
  ∃ p ∈ parts, p.remove = false ∧
    ∃ k, start ≤ k ∧ k ≤ stop ∧ p.start_sector ≤ k ∧ k ≤ p.end_sector

deriving instance DecidableEq for Except

/-- Partition 1 of the representative four-partition test disk
(src/disk/mod.rs tests, `get_default`): the Fat16 boot partition. -/
def sdz1 : PartitionInfo :=
  { active := true, busy := true, is_source := true, remove := false,
    format := false, device_path := "/dev/sdz1",
    mount_point := some "/boot", start_sector := 2048, end_sector := 1026047,
    filesystem := some .Fat16, name := none, number := 1,
    part_type := .Primary }

/-- Partition 2 of the representative test disk: the Btrfs root partition. -/
def sdz2 : PartitionInfo :=
  { active := true, busy := true, is_source := true, remove := false,
    format := false, device_path := "/dev/sdz2",
    mount_point := some "/", start_sector := 1026048, end_sector := 420456447,
    filesystem := some .Btrfs, name := some "Pop!_OS", number := 2,
    part_type := .Primary }

/-- Partition 3 of the representative test disk: an unmounted Ext4 partition. -/
def sdz3 : PartitionInfo :=
  { active := false, busy := false, is_source := true, remove := false,
    format := false, device_path := "/dev/sdz3",
    mount_point := none, start_sector := 420456448, end_sector := 1936738303,
    filesystem := some .Ext4, name := some "Solus OS", number := 3,
    part_type := .Primary }

/-- Partition 4 of the representative test disk: the swap partition. -/
def sdz4 : PartitionInfo :=
  { active := true, busy := false, is_source := true, remove := false,
    format := false, device_path := "/dev/sdz4",
    mount_point := none, start_sector := 1936738304, end_sector := 1953523711,
    filesystem := some .Swap, name := none, number := 4,
    part_type := .Primary }

/-- The representative test disk of src/disk/mod.rs (`get_default`):
1,953,525,168 sectors of 512 bytes, GPT, four source partitions. -/
def defaultDisk : Disk :=
  { model_name := "Test Disk", serial := "Test Disk 123",
    device_path := "/dev/sdz", size := 1953525168, sector_size := 512,
    device_type := "TEST", table_type := some .Gpt, read_only := false,
    partitions := [sdz1, sdz2, sdz3, sdz4] }

/-- 20 GiB in 512-byte sectors (src/disk/mod.rs tests, `GIB20`). -/
def GIB20 : Nat := 41943040

/-- A 500 MiB Fat16 partition builder (src/disk/mod.rs tests, `boot_part`). -/
def boot_part (start : Nat) : PartitionBuilder :=
  PartitionBuilder.new start (1024000 + start) .Fat16

/-- A 20 GiB Ext4 partition builder (src/disk/mod.rs tests, `root_part`). -/
def root_part (start : Nat) : PartitionBuilder :=
  PartitionBuilder.new start (GIB20 + start) .Ext4

/-- Step 1 of the C1 scenario: remove partition 1 from a clone of the
representative disk. -/
def c1Step1 : Except DiskError Unit × Disk := defaultDisk.remove_partition 1

/-- Step 2 of the C1 scenario: remove partition 2. -/
def c1Step2 : Except DiskError Unit × Disk := c1Step1.2.remove_partition 2

/-- Step 3 of the C1 scenario: reformat partition 3 to Xfs. -/
def c1Step3 : Except DiskError Unit × Disk := c1Step2.2.format_partition 3 .Xfs

/-- Step 4 of the C1 scenario: resize partition 3 to 41,943,040 sectors. -/
def c1Step4 : Except DiskError Unit × Disk := c1Step3.2.resize_partition 3 GIB20

/-- Step 5 of the C1 scenario: remove partition 4. -/
def c1Step5 : Except DiskError Unit × Disk := c1Step4.2.remove_partition 4

/-- Step 6 of the C1 scenario: add a new Fat16 partition at sector 2048 of
length 1,024,000. -/
def c1Step6 : Except DiskError Unit × Disk := c1Step5.2.add_partition (boot_part 2048)

/-- Step 7 of the C1 scenario: add a new Ext4 partition at sector 1,026,048
of length 41,943,040. -/
def c1Step7 : Except DiskError Unit × Disk := c1Step6.2.add_partition (root_part 1026048)

/-- The operation plan the spec expects for the C1 scenario. -/
def c1ExpectedOps : DiskOps :=
  { remove_partitions := [1, 2, 4],
    change_partitions :=
      [{ num := 3, start := 420456448, stop := 420456448 + GIB20,
         format := some .Xfs }],
    create_partitions :=
      [{ start_sector := 2048, end_sector := 1024000 + 2047,
         file_system := .Fat16 },
       { start_sector := 1026048, end_sector := GIB20 + 1026047,
         file_system := .Ext4 }] }


/-- First partition of the C2 demonstration disk: number 1, sectors
[100000, 200000]. -/
def c2part1 : PartitionInfo :=
  { is_source := true, remove := false, format := false, active := false,
    busy := false, number := 1, start_sector := 100000, end_sector := 200000,
    part_type := .Primary, filesystem := some .Ext4, name := none,
    device_path := "/dev/sdy1", mount_point := none }

/-- Second partition of the C2 demonstration disk: number 2, sectors
[300000, 400000], strictly disjoint from partition 1. -/
def c2part2 : PartitionInfo :=
  { is_source := true, remove := false, format := false, active := false,
    busy := false, number := 2, start_sector := 300000, end_sector := 400000,
    part_type := .Primary, filesystem := some .Ext4, name := none,
    device_path := "/dev/sdy2", mount_point := none }

/-- The C2 demonstration disk: two strictly disjoint source partitions. -/
def c2Disk : Disk :=
  { model_name := "Test Disk", serial := "C2", device_path := "/dev/sdy",
    size := 1953525168, sector_size := 512, device_type := "TEST",
    table_type := some .Gpt, read_only := false,
    partitions := [c2part1, c2part2] }

/-- A proposed-new (non-source) record with number 5, sitting at index 0 of
the C4 demonstration disk. -/
def c4part : PartitionInfo :=
  { is_source := false, remove := false, format := false, active := false,
    busy := false, number := 5, start_sector := 2048, end_sector := 200000,
    part_type := .Primary, filesystem := some .Ext4, name := none,
    device_path := "/dev/sdx5", mount_point := none }

/-- The C4 demonstration disk: a single proposed-new record at index 0. -/
def c4Disk : Disk :=
  { model_name := "Test Disk", serial := "C4", device_path := "/dev/sdx",
    size := 1953525168, sector_size := 512, device_type := "TEST",
    table_type := some .Gpt, read_only := false, partitions := [c4part] }

/-- Source partition number 1 of the C5 demonstration. -/
def c5part1 : PartitionInfo :=
  { is_source := true, remove := false, format := false, active := false,
    busy := false, number := 1, start_sector := 2048, end_sector := 99999,
    part_type := .Primary, filesystem := some .Ext4, name := none,
    device_path := "/dev/sdw1", mount_point := none }

/-- Source partition number 2 of the C5 demonstration. -/
def c5part2 : PartitionInfo :=
  { is_source := true, remove := false, format := false, active := false,
    busy := false, number := 2, start_sector := 100000, end_sector := 200000,
    part_type := .Primary, filesystem := some .Ext4, name := none,
    device_path := "/dev/sdw2", mount_point := none }

/-- The C5 original disk: source partitions 1 and 2 in that order. -/
def c5Original : Disk :=
  { model_name := "Test Disk", serial := "C5", device_path := "/dev/sdw",
    size := 1953525168, sector_size := 512, device_type := "TEST",
    table_type := some .Gpt, read_only := false,
    partitions := [c5part1, c5part2] }

/-- The C5 proposed disk: exactly the same two source records, listed in the
opposite order. -/
def c5Proposed : Disk :=
  { c5Original with partitions := [c5part2, c5part1] }

/-- The C8 counterexample disk: its single partition is a proposed-new
(non-source) record, as produced by add_partition before any diff. -/
def c8part : PartitionInfo :=
  { is_source := false, remove := false, format := false, active := false,
    busy := false, number := 1, start_sector := 2048, end_sector := 4095,
    part_type := .Primary, filesystem := some .Ext4, name := none,
    device_path := "/dev/sdv1", mount_point := none }

/-- The C8 counterexample disk. -/
def c8Disk : Disk :=
  { model_name := "Test Disk", serial := "C8", device_path := "/dev/sdv",
    size := 1953525168, sector_size := 512, device_type := "TEST",
    table_type := some .Gpt, read_only := false, partitions := [c8part] }

/-- The single source partition of the C3 witness disk. -/
def c3part : PartitionInfo :=
  { is_source := true, remove := false, format := false, active := false,
    busy := false, number := 1, start_sector := 2048, end_sector := 1026047,
    part_type := .Primary, filesystem := some .Fat16, name := none,
    device_path := "/dev/sdu1", mount_point := none }

/-- The C3 witness disk. -/
def c3Disk : Disk :=
  { model_name := "Test Disk", serial := "C3", device_path := "/dev/sdu",
    size := 1953525168, sector_size := 512, device_type := "TEST",
    table_type := some .Gpt, read_only := false, partitions := [c3part] }

/-- The C3 witness builder: a candidate range clear of the existing
partition and inside the disk. -/
def c3Builder : PartitionBuilder := PartitionBuilder.new 1030000 2000000 .Ext4

/-- The single source partition of the C6 witness disk. -/
def c6part : PartitionInfo :=
  { is_source := true, remove := false, format := false, active := false,
    busy := false, number := 1, start_sector := 2048, end_sector := 99999,
    part_type := .Primary, filesystem := some .Ext4, name := none,
    device_path := "/dev/sdt1", mount_point := none }

/-- The C6 witness original disk: one source partition. -/
def c6Disk : Disk :=
  { model_name := "Test Disk", serial := "C6", device_path := "/dev/sdt",
    size := 1953525168, sector_size := 512, device_type := "TEST",
    table_type := some .Gpt, read_only := false, partitions := [c6part] }

/-- The C6 witness proposed disk: the source partition was dropped from the
list entirely instead of being flagged for removal. -/
def c6Proposed : Disk := { c6Disk with partitions := [] }

/-- The single source partition of the C7/C9 witness disk. -/
def c7part : PartitionInfo :=
  { is_source := true, remove := false, format := false, active := false,
    busy := false, number := 1, start_sector := 2048, end_sector := 4095,
    part_type := .Primary, filesystem := some .Ext4, name := none,
    device_path := "/dev/sds1", mount_point := none }

/-- The C7 witness disk. -/
def c7Disk : Disk :=
  { model_name := "Test Disk", serial := "C7", device_path := "/dev/sds",
    size := 1953525168, sector_size := 512, device_type := "TEST",
    table_type := some .Gpt, read_only := false, partitions := [c7part] }

/-- The C9 witness disk (same single-partition layout as the C7 witness). -/
def c9Disk : Disk :=
  { model_name := "Test Disk", serial := "C9", device_path := "/dev/sdr",
    size := 1953525168, sector_size := 512, device_type := "TEST",
    table_type := some .Gpt, read_only := false, partitions := [c7part] }

/-- The C10 witness disk: 512-byte sectors and no partition with number 9,
so the too-small check is observed to fire before the existence check. -/
def c10Disk : Disk :=
  { model_name := "Test Disk", serial := "C10", device_path := "/dev/sdq",
    size := 1953525168, sector_size := 512, device_type := "TEST",
    table_type := some .Gpt, read_only := false, partitions := [] }

theorem firstWithNumber?_eq_some_number {n : Int} {l : List PartitionInfo}
    {p : PartitionInfo} (h : firstWithNumber? n l = some p) : p.number = n := by
  induction l with
  | nil => simp [firstWithNumber?] at h
  | cons q rest ih =>
    by_cases hq : q.number = n
    · simp [firstWithNumber?, hq] at h
      subst h; exact hq
    · simp [firstWithNumber?, hq] at h
      exact ih h

theorem firstWithNumber?_mem {n : Int} {l : List PartitionInfo}
    {p : PartitionInfo} (h : firstWithNumber? n l = some p) : p ∈ l := by
  induction l with
  | nil => simp [firstWithNumber?] at h
  | cons q rest ih =>
    by_cases hq : q.number = n
    · simp [firstWithNumber?, hq] at h
      simp [h]
    · simp [firstWithNumber?, hq] at h
      exact List.mem_cons_of_mem q (ih h)

theorem firstWithNumber?_modify (n : Int) (f : PartitionInfo → PartitionInfo)
    (l : List PartitionInfo) (hf : ∀ p, (f p).number = p.number) :
    firstWithNumber? n (modifyFirstWithNumber n f l)
      = (firstWithNumber? n l).map f := by
  induction l with
  | nil => rfl
  | cons q rest ih =>
    by_cases hq : q.number = n
    · simp [modifyFirstWithNumber, firstWithNumber?, hq, hf]
    · simp [modifyFirstWithNumber, firstWithNumber?, hq, ih]

theorem modifyFirstWithNumber_comp (n : Int) (f g : PartitionInfo → PartitionInfo)
    (l : List PartitionInfo) (hf : ∀ p, (f p).number = p.number) :
    modifyFirstWithNumber n g (modifyFirstWithNumber n f l)
      = modifyFirstWithNumber n (fun p => g (f p)) l := by
  induction l with
  | nil => rfl
  | cons q rest ih =>
    by_cases hq : q.number = n
    · simp [modifyFirstWithNumber, hq, hf]
    · simp [modifyFirstWithNumber, hq, ih]

theorem modifyFirstWithNumber_eq_self (n : Int) (g : PartitionInfo → PartitionInfo)
    (l : List PartitionInfo) (p : PartitionInfo)
    (hfind : firstWithNumber? n l = some p) (hg : g p = p) :
    modifyFirstWithNumber n g l = l := by
  induction l with
  | nil => rfl
  | cons q rest ih =>
    by_cases hq : q.number = n
    · simp [firstWithNumber?, hq] at hfind
      subst hfind
      simp [modifyFirstWithNumber, hq, hg]
    · simp [firstWithNumber?, hq] at hfind
      simp [modifyFirstWithNumber, hq, ih hfind]

theorem overlaps_region_isSome_iff (d : Disk) (s e : Nat) (hse : s ≤ e)
    (hwf : ∀ p ∈ d.partitions, p.start_sector ≤ p.end_sector) :
    (d.overlaps_region s e).isSome ↔ sharesOrTouches d.partitions s e := by
  unfold Disk.overlaps_region sharesOrTouches
  rw [Option.isSome_map', List.find?_isSome]
  constructor
  · rintro ⟨p, hmem, hpred⟩
    rw [List.mem_filter] at hmem
    obtain ⟨hmem, hrm⟩ := hmem
    rw [decide_eq_true_eq] at hpred
    have hw := hwf p hmem
    refine ⟨p, hmem, by simpa using hrm, max s p.start_sector, ?_, ?_, ?_, ?_⟩ <;> omega
  · rintro ⟨p, hmem, hrm, k, h1, h2, h3, h4⟩
    refine ⟨p, List.mem_filter.mpr ⟨hmem, by simp [hrm]⟩, ?_⟩
    rw [decide_eq_true_eq]
    omega

theorem overlaps_region_eq_none_iff (d : Disk) (s e : Nat) (hse : s ≤ e)
    (hwf : ∀ p ∈ d.partitions, p.start_sector ≤ p.end_sector) :
    d.overlaps_region s e = none ↔ ¬ sharesOrTouches d.partitions s e := by
  rw [← overlaps_region_isSome_iff d s e hse hwf, ← Option.not_isSome_iff_eq_none]

/-- Claim C1: on the representative four-partition disk of 1,953,525,168
sectors (512-byte sectors), applying to a clone the mutations remove(1),
remove(2), format(3, Xfs), resize(3, 41943040), remove(4), add Fat16 at
start 2048 of length 1,024,000, add Ext4 at start 1,026,048 of length
41,943,040 succeeds at every step, and diffing the original against the
clone yields exactly: removals [1, 2, 4] in order, one change
{num 3, start 420456448, end 420456448 + 41943040, format Xfs}, and two
creations {2048, 1024000 + 2047, Fat16} and {1026048, 41943040 + 1026047,
Ext4} in order. -/
theorem c1_layout_diff_scenario :
    c1Step1.1 = .ok () ∧ c1Step2.1 = .ok () ∧ c1Step3.1 = .ok () ∧
    c1Step4.1 = .ok () ∧ c1Step5.1 = .ok () ∧ c1Step6.1 = .ok () ∧
    c1Step7.1 = .ok () ∧
    defaultDisk.diff c1Step7.2 = some (.ok c1ExpectedOps) := by
  refine ⟨rfl, rfl, rfl, rfl, rfl, rfl, rfl, ?_⟩
  decide

/-- Claim C2 is violated by the code: from a Disk Model whose two partitions
are strictly disjoint and not flagged for removal, resize_partition(1,
250001) succeeds, yet the resized range [100000, 350001] now intersects
partition 2's range [300000, 400000] — `overlaps_region` finds the resized
partition itself first and the `id != num` exemption masks the collision
with the later partition, so success does not imply pairwise
disjointness. -/
theorem c2_resize_breaks_disjointness :
    (c2Disk.resize_partition 1 250001).1 = .ok () ∧
    ((c2Disk.resize_partition 1 250001).2.partitions.map
        (fun p => (p.start_sector, p.end_sector, p.remove))
      = [(100000, 350001, false), (300000, 400000, false)]) ∧
    ¬((350001 : Nat) < 300000 ∨ (100000 : Nat) > 400000) := by
  refine ⟨rfl, rfl, by decide⟩

/-- Claim C4 is violated by the code: removing a proposed-new (non-source)
record that sits at index 0 of the partition list returns Ok but leaves the
record in the list untouched, because the source reuses the id value 0 both
as the "flagged a source record" sentinel and as a real list index. -/
theorem c4_remove_keeps_nonsource_at_index_zero :
    (c4Disk.remove_partition 5).1 = .ok () ∧
    (c4Disk.remove_partition 5).2 = c4Disk ∧
    c4part ∈ (c4Disk.remove_partition 5).2.partitions ∧
    c4part.is_source = false := by
  refine ⟨rfl, rfl, by decide, rfl⟩

/-- Claim C5 is violated by the code: the proposed disk below contains a
matching source counterpart for both original source partitions, merely in
the opposite list order, yet diff fails with LayoutChanged — the validation
scan advances one shared iterator over the proposed list, so matching does
depend on list-order correspondence. -/
theorem c5_diff_is_order_dependent :
    (∀ q ∈ c5Original.partitions, ∃ r ∈ c5Proposed.partitions,
        q.is_same_partition_as r = true) ∧
    c5Original.diff c5Proposed = some (.error .LayoutChanged) := by
  refine ⟨by decide, rfl⟩

/-- Claim C8, as stated, is false: a Disk Model whose single partition is a
proposed-new (non-source) record does not diff against its own clone into an
empty plan; the diff fails with LayoutChanged instead, because validation
requires every record of the original to match by SOURCE flag and number. -/
theorem c8_identity_fails_for_nonsource_counterexample :
    c8Disk.diff c8Disk = some (.error .LayoutChanged) ∧
    c8Disk.diff c8Disk ≠ some (.ok
      { remove_partitions := [], change_partitions := [],
        create_partitions := [] }) := by
  refine ⟨rfl, by decide⟩

theorem validateLoop_self (l : List PartitionInfo)
    (h : ∀ p ∈ l, p.is_source = true) : validateLoop l l = true := by
  induction l with
  | nil => rfl
  | cons p rest ih =>
    have hp : p.is_same_partition_as p = true := by
      simp [PartitionInfo.is_same_partition_as, h p (List.mem_cons_self p rest)]
    simp only [validateLoop, seekMatch, hp, if_true]
    exact ih fun q hq => h q (List.mem_cons_of_mem p hq)

theorem requires_changes_self (p : PartitionInfo) (h : p.format = false) :
    p.requires_changes p = false := by
  simp [PartitionInfo.requires_changes, PartitionInfo.sectors_differ_from, h]

theorem diffLoop_self (l : List PartitionInfo)
    (h : ∀ p ∈ l, p.is_source = true ∧ p.remove = false ∧ p.format = false) :
    diffLoop l l = some ([], [], []) := by
  induction l with
  | nil => rfl
  | cons p rest ih =>
    obtain ⟨hs, hr, hf⟩ := h p (List.mem_cons_self p rest)
    simp only [diffLoop, hs, hr, requires_changes_self p hf, ne_eq,
      not_true_eq_false, if_true, if_false, Bool.false_eq_true, ite_false]
    exact ih fun q hq => h q (List.mem_cons_of_mem p hq)

/-- Claim C8 (amended): for every Disk Model whose partition records are all
source records with the remove and format flags clear — the shape of every
freshly probed original snapshot — diffing the disk against a clone of
itself succeeds and yields the empty operation plan. -/
theorem c8_diff_identity (d : Disk)
    (h : ∀ p ∈ d.partitions,
      p.is_source = true ∧ p.remove = false ∧ p.format = false) :
    d.diff d = some (.ok
      { remove_partitions := [], change_partitions := [],
        create_partitions := [] }) := by
  have h1 : validateLoop d.partitions d.partitions = true :=
    validateLoop_self _ fun p hp => (h p hp).1
  have h2 : diffLoop d.partitions d.partitions = some ([], [], []) :=
    diffLoop_self _ h
  simp [Disk.diff, Disk.validate_layout, h1, h2, createAll]

/-- Witness for the amended C8 claim at the representative test disk. -/
theorem c8_diff_identity_witness :
    defaultDisk.diff defaultDisk = some (.ok
      { remove_partitions := [], change_partitions := [],
        create_partitions := [] }) :=
  c8_diff_identity defaultDisk (by decide)

theorem seekMatch_subset {s : PartitionInfo} {avail r : List PartitionInfo}
    (h : seekMatch s avail = some r) : ∀ q ∈ r, q ∈ avail := by
  induction avail with
  | nil => simp [seekMatch] at h
  | cons a rest ih =>
    by_cases ha : s.is_same_partition_as a = true
    · simp only [seekMatch, ha, if_true, Option.some.injEq] at h
      subst h
      exact fun q hq => List.mem_cons_of_mem a hq
    · simp only [seekMatch, ha, if_false] at h
      exact fun q hq => List.mem_cons_of_mem a (ih h q hq)

theorem seekMatch_none {s : PartitionInfo} {avail : List PartitionInfo}
    (h : ∀ q ∈ avail, s.is_same_partition_as q = false) :
    seekMatch s avail = none := by
  induction avail with
  | nil => rfl
  | cons a rest ih =>
    have ha := h a (List.mem_cons_self a rest)
    simp only [seekMatch, ha, Bool.false_eq_true, if_false]
    exact ih fun q hq => h q (List.mem_cons_of_mem a hq)

theorem validateLoop_false {p : PartitionInfo} :
    ∀ (orig avail : List PartitionInfo), p ∈ orig →
      (∀ q ∈ avail, p.is_same_partition_as q = false) →
      validateLoop orig avail = false := by
  intro orig
  induction orig with
  | nil => intro avail h; simp at h
  | cons s rest ih =>
    intro avail hmem hnone
    rcases List.mem_cons.mp hmem with heq | hmem'
    · subst heq
      simp [validateLoop, seekMatch_none hnone]
    · cases hseek : seekMatch s avail with
      | none => simp [validateLoop, hseek]
      | some r =>
        simp only [validateLoop, hseek]
        exact ih r hmem' fun q hq => hnone q (seekMatch_subset hseek q hq)

/-- Claim C6: if some source partition of the original disk has no record in
the proposed disk's list matching it by SOURCE flag and number — absent
entirely, not merely flagged for removal — then diff fails with
LayoutChanged and produces no operation plan. -/
theorem c6_diff_layout_changed (d new : Disk) (p : PartitionInfo)
    (hp : p ∈ d.partitions) (hsrc : p.is_source = true)
    (habsent : ∀ q ∈ new.partitions,
      ¬(q.is_source = true ∧ q.number = p.number)) :
    d.diff new = some (.error .LayoutChanged) := by
  have hnone : ∀ q ∈ new.partitions, p.is_same_partition_as q = false := by
    intro q hq
    have hnq := habsent q hq
    by_cases hqs : q.is_source = true
    · have hne : p.number ≠ q.number := fun h => hnq ⟨hqs, h.symm⟩
      simp [PartitionInfo.is_same_partition_as, hsrc, hqs, hne]
    · have hqs' : q.is_source = false := Bool.eq_false_iff.mpr hqs
      simp [PartitionInfo.is_same_partition_as, hqs']
  have hval : validateLoop d.partitions new.partitions = false :=
    validateLoop_false d.partitions new.partitions hp hnone
  simp [Disk.diff, Disk.validate_layout, hval]

/-- Witness for C6: dropping the single source partition from the proposed
list makes diff fail with LayoutChanged. -/
theorem c6_diff_layout_changed_witness :
    c6Disk.diff c6Proposed = some (.error .LayoutChanged) :=
  c6_diff_layout_changed c6Disk c6Proposed c6part (by decide) rfl (by decide)

/-- Claim C10: for every Disk Model with a positive sector size (the Rust
division would trap on zero) and any partition number — including numbers
with no matching record — resizing to a length at or below
(10 * 1024 * 1024) / sector_size fails with ResizeTooSmall and leaves the
disk unchanged; the minimum-size check precedes the existence check. -/
theorem c10_resize_too_small (d : Disk) (n : Int) (len : Nat)
    (hss : 0 < d.sector_size)
    (hlen : len ≤ 10 * 1024 * 1024 / d.sector_size) :
    d.resize_partition n len = (.error .ResizeTooSmall, d) := by
  simp [Disk.resize_partition, hlen]

/-- Witness for C10: resizing nonexistent partition 9 to 20480 sectors on a
512-byte-sector disk reports ResizeTooSmall, not PartitionNotFound. -/
theorem c10_resize_too_small_witness :
    c10Disk.resize_partition 9 20480 = (.error .ResizeTooSmall, c10Disk) :=
  c10_resize_too_small c10Disk 9 20480 (by decide) (by decide)

/-- Claim C3: with a well-formed candidate range and well-formed existing
partitions, add_partition fails with SectorOverlaps exactly when the
candidate inclusive range shares or touches a sector of some existing
non-removed partition's inclusive range (adjacent boundaries share the
boundary sector and are rejected); absent such an overlap it fails with
PartitionOOB exactly when the end sector exceeds the disk size, and
otherwise it succeeds and appends the built record to the partition
list. -/
theorem c3_add_partition_cases (d : Disk) (b : PartitionBuilder)
    (hb : b.start_sector ≤ b.end_sector)
    (hwf : ∀ p ∈ d.partitions, p.start_sector ≤ p.end_sector) :
    ((∃ id, (d.add_partition b).1 = .error (.SectorOverlaps id)) ↔
      sharesOrTouches d.partitions b.start_sector b.end_sector) ∧
    (¬ sharesOrTouches d.partitions b.start_sector b.end_sector →
      (((d.add_partition b).1 = .error .PartitionOOB) ↔
        d.size < b.end_sector)) ∧
    (¬ sharesOrTouches d.partitions b.start_sector b.end_sector →
      b.end_sector ≤ d.size →
      d.add_partition b
        = (.ok (), { d with partitions := d.partitions ++ [b.build] })) := by
  cases hov : d.overlaps_region b.start_sector b.end_sector with
  | some id =>
    have hsh : sharesOrTouches d.partitions b.start_sector b.end_sector := by
      rw [← overlaps_region_isSome_iff d _ _ hb hwf, hov]
      rfl
    refine ⟨⟨fun _ => hsh, fun _ => ⟨id, ?_⟩⟩,
      fun hn => absurd hsh hn, fun hn => absurd hsh hn⟩
    simp [Disk.add_partition, hov]
  | none =>
    have hsh : ¬ sharesOrTouches d.partitions b.start_sector b.end_sector :=
      (overlaps_region_eq_none_iff d _ _ hb hwf).mp hov
    by_cases hsz : d.size < b.end_sector
    · refine ⟨⟨?_, fun hs => absurd hs hsh⟩,
        fun _ => ⟨fun _ => hsz, fun _ => ?_⟩,
        fun _ hle => absurd hsz (by omega)⟩
      · rintro ⟨id, hid⟩
        simp [Disk.add_partition, hov, hsz] at hid
      · simp [Disk.add_partition, hov, hsz]
    · refine ⟨⟨?_, fun hs => absurd hs hsh⟩,
        fun _ => ⟨?_, fun hlt => absurd hlt hsz⟩,
        fun _ _ => ?_⟩
      · rintro ⟨id, hid⟩
        simp [Disk.add_partition, hov, hsz] at hid
      · intro hid
        simp [Disk.add_partition, hov, hsz] at hid
      · simp [Disk.add_partition, hov, hsz]

/-- Witness for C3 at a concrete disk and builder: the single existing
partition occupies [2048, 1026047] and the candidate occupies
[1030000, 1999999]. -/
theorem c3_add_partition_cases_witness :
    ((∃ id, (c3Disk.add_partition c3Builder).1 = .error (.SectorOverlaps id)) ↔
      sharesOrTouches c3Disk.partitions c3Builder.start_sector
        c3Builder.end_sector) ∧
    (¬ sharesOrTouches c3Disk.partitions c3Builder.start_sector
        c3Builder.end_sector →
      (((c3Disk.add_partition c3Builder).1 = .error .PartitionOOB) ↔
        c3Disk.size < c3Builder.end_sector)) ∧
    (¬ sharesOrTouches c3Disk.partitions c3Builder.start_sector
        c3Builder.end_sector →
      c3Builder.end_sector ≤ c3Disk.size →
      c3Disk.add_partition c3Builder
        = (.ok (), { c3Disk with
            partitions := c3Disk.partitions ++ [c3Builder.build] })) :=
  c3_add_partition_cases c3Disk c3Builder (by decide) (by decide)

/-- Claim C7: resize_partition is atomic — whenever it returns an error
(ResizeTooSmall, PartitionNotFound or SectorOverlaps) the resulting disk is
exactly the disk before the call, every record's sectors included; whenever
it returns success, the named partition's end sector equals its start sector
plus the requested length. -/
theorem c7_resize_atomic (d : Disk) (n : Int) (len : Nat) :
    (∀ e, (d.resize_partition n len).1 = .error e →
      (d.resize_partition n len).2 = d) ∧
    ((d.resize_partition n len).1 = .ok () →
      ∃ p, firstWithNumber? n (d.resize_partition n len).2.partitions = some p ∧
        p.end_sector = p.start_sector + len) := by
  by_cases hsmall : len ≤ 10 * 1024 * 1024 / d.sector_size
  · constructor
    · intro e _
      simp [Disk.resize_partition, hsmall]
    · intro hok
      simp [Disk.resize_partition, hsmall] at hok
  · cases hfind : firstWithNumber? n d.partitions with
    | none =>
      constructor
      · intro e _
        simp [Disk.resize_partition, hsmall, hfind]
      · intro hok
        simp [Disk.resize_partition, hsmall, hfind] at hok
    | some p =>
      cases hov : Disk.overlaps_region { d with partitions := modifyFirstWithNumber n (fun q => { q with end_sector := p.start_sector + len }) d.partitions } p.start_sector (p.start_sector + len) with
      | some id =>
        by_cases hid : id = p.number
        · constructor
          · intro e he
            simp [Disk.resize_partition, hsmall, hfind, hov, hid] at he
          · intro _
            refine ⟨{ p with end_sector := p.start_sector + len }, ?_, rfl⟩
            have hparts : (d.resize_partition n len).2.partitions
                = modifyFirstWithNumber n (fun q => { q with end_sector := p.start_sector + len }) d.partitions := by
              simp [Disk.resize_partition, hsmall, hfind, hov, hid]
            rw [hparts,
              firstWithNumber?_modify n (fun q => { q with end_sector := p.start_sector + len }) d.partitions fun q => rfl,
              hfind]
            rfl
        · constructor
          · intro e _
            have hcomp : modifyFirstWithNumber n (fun q => { q with end_sector := p.end_sector }) (modifyFirstWithNumber n (fun q => { q with end_sector := p.start_sector + len }) d.partitions) = d.partitions := by
              rw [modifyFirstWithNumber_comp n (fun q => { q with end_sector := p.start_sector + len }) (fun q => { q with end_sector := p.end_sector }) d.partitions fun q => rfl]
              exact modifyFirstWithNumber_eq_self n _ d.partitions p hfind rfl
            simp [Disk.resize_partition, hsmall, hfind, hov, hid, hcomp]
          · intro hok
            simp [Disk.resize_partition, hsmall, hfind, hov, hid] at hok
      | none =>
        constructor
        · intro e he
          simp [Disk.resize_partition, hsmall, hfind, hov] at he
        · intro _
          refine ⟨{ p with end_sector := p.start_sector + len }, ?_, rfl⟩
          have hparts : (d.resize_partition n len).2.partitions
              = modifyFirstWithNumber n (fun q => { q with end_sector := p.start_sector + len }) d.partitions := by
            simp [Disk.resize_partition, hsmall, hfind, hov]
          rw [hparts,
            firstWithNumber?_modify n (fun q => { q with end_sector := p.start_sector + len }) d.partitions fun q => rfl,
            hfind]
          rfl

/-- Witness for C7: resizing partition 1 of the witness disk to 5 sectors
fails with ResizeTooSmall and leaves the disk exactly as it was. -/
theorem c7_resize_atomic_witness :
    (c7Disk.resize_partition 1 5).2 = c7Disk :=
  (c7_resize_atomic c7Disk 1 5).1 .ResizeTooSmall (by decide)

/-- Claim C9: move_partition fails with PartitionNotFound when no record has
the given number; succeeds as a no-op when the new start equals the current
start; otherwise, with well-formed partitions, it fails with SectorOverlaps
and no mutation exactly when the shifted range conflicts with a non-removed
partition (the moved partition's own old range included), and succeeds
otherwise, shifting start and end sector by the same delta so the length is
preserved. -/
theorem c9_move_partition_cases (d : Disk) (n : Int) (s : Nat)
    (hwf : ∀ p ∈ d.partitions, p.start_sector ≤ p.end_sector) :
    (firstWithNumber? n d.partitions = none →
      d.move_partition n s = (.error (.PartitionNotFound n), d)) ∧
    (∀ p, firstWithNumber? n d.partitions = some p →
      (s = p.start_sector → d.move_partition n s = (.ok (), d)) ∧
      (s ≠ p.start_sector →
        (¬ sharesOrTouches d.partitions s (movedEnd p s) →
          (d.move_partition n s).1 = .ok () ∧
          ∃ p', firstWithNumber? n (d.move_partition n s).2.partitions = some p' ∧
            p'.start_sector = s ∧
            p'.end_sector + p.start_sector = p.end_sector + s ∧
            p'.end_sector - p'.start_sector = p.end_sector - p.start_sector) ∧
        (sharesOrTouches d.partitions s (movedEnd p s) →
          ∃ id, d.move_partition n s = (.error (.SectorOverlaps id), d)))) := by
  constructor
  · intro h
    simp [Disk.move_partition, h]
  · intro p hfind
    constructor
    · intro hs
      simp [Disk.move_partition, hfind, hs]
    · intro hs
      have hwfp : p.start_sector ≤ p.end_sector :=
        hwf p (firstWithNumber?_mem hfind)
      have hse : s ≤ movedEnd p s := by
        unfold movedEnd
        split <;> omega
      have hiff := overlaps_region_isSome_iff d s (movedEnd p s) hse hwf
      cases hov : d.overlaps_region s (movedEnd p s) with
      | some id =>
        have hsh : sharesOrTouches d.partitions s (movedEnd p s) := by
          rw [← hiff, hov]
          rfl
        refine ⟨fun hn => absurd hsh hn, fun _ => ⟨id, ?_⟩⟩
        simp only [movedEnd] at hov
        simp [Disk.move_partition, hfind, hs, hov]
      | none =>
        have hsh : ¬ sharesOrTouches d.partitions s (movedEnd p s) := by
          rw [← hiff, hov]
          simp
        refine ⟨fun _ => ?_, fun hcon => absurd hcon hsh⟩
        simp only [movedEnd] at hov
        constructor
        · simp [Disk.move_partition, hfind, hs, hov]
        · refine ⟨{ p with start_sector := s, end_sector := movedEnd p s },
            ?_, rfl, ?_, ?_⟩
          · have hparts : (d.move_partition n s).2.partitions
                = modifyFirstWithNumber n (fun q => { q with start_sector := s, end_sector := if s > p.start_sector then p.end_sector + (s - p.start_sector) else p.end_sector - (p.start_sector - s) }) d.partitions := by
              simp [Disk.move_partition, hfind, hs, hov]
            rw [hparts,
              firstWithNumber?_modify n (fun q => { q with start_sector := s, end_sector := if s > p.start_sector then p.end_sector + (s - p.start_sector) else p.end_sector - (p.start_sector - s) }) d.partitions fun q => rfl,
              hfind]
            rfl
          · show movedEnd p s + p.start_sector = p.end_sector + s
            unfold movedEnd
            split <;> omega
          · show movedEnd p s - s = p.end_sector - p.start_sector
            unfold movedEnd
            split <;> omega

/-- Witness for C9 at a concrete single-partition disk, new start 8192. -/
theorem c9_move_partition_cases_witness :
    (firstWithNumber? 1 c9Disk.partitions = none →
      c9Disk.move_partition 1 8192 = (.error (.PartitionNotFound 1), c9Disk)) ∧
    (∀ p, firstWithNumber? 1 c9Disk.partitions = some p →
      (8192 = p.start_sector →
        c9Disk.move_partition 1 8192 = (.ok (), c9Disk)) ∧
      (8192 ≠ p.start_sector →
        (¬ sharesOrTouches c9Disk.partitions 8192 (movedEnd p 8192) →
          (c9Disk.move_partition 1 8192).1 = .ok () ∧
          ∃ p', firstWithNumber? 1
              (c9Disk.move_partition 1 8192).2.partitions = some p' ∧
            p'.start_sector = 8192 ∧
            p'.end_sector + p.start_sector = p.end_sector + 8192 ∧
            p'.end_sector - p'.start_sector
              = p.end_sector - p.start_sector) ∧
        (sharesOrTouches c9Disk.partitions 8192 (movedEnd p 8192) →
          ∃ id, c9Disk.move_partition 1 8192
            = (.error (.SectorOverlaps id), c9Disk)))) :=
  c9_move_partition_cases c9Disk 1 8192 (by decide)
